import Mathlib

set_option maxHeartbeats 1000000

/-
Verification of the patient/task identity and lifecycle model of the
Healthify repository.  The five persisted relations of the embedded
SQLite store (patients, tasks, oldlabs, consultations, oldconsultations)
are embedded as lists of row structures, and each mutating handler of
the screens (add patient, edit patient, discharge, re-admit, add
lab/imaging/consultation items, delete items, mark items as sent, edit
task) is translated into a pure state-passing function over that store.
SQL UPDATE is a map over the table, DELETE is a filter, INSERT appends a
row with the schema defaults applied, and the one multi-statement
transaction (the edit-patient rename path) is modelled with explicit
failure flags for each statement: a failed statement rolls the store
back to the snapshot taken at BEGIN.
-/

/-- One row of the patients table of src/unnamed/part_004.  The
autoincrement surrogate id is omitted: no query of the repository
filters or joins on it beyond existence checks. -/
structure PatientRow where
  patientName : String
  age : Option Int
  gender : String
  registrationNumber : String
  location : String
  bedNumber : Option Int
  chiefComplaints : Option String
  provisionalDiagnosis : Option String
  miscNotes : Option String
  reg_date : String
  contact : String
  is_discharged : Nat
deriving DecidableEq, Repr

/-- One row of the tasks table: nullable lab and imaging payload columns,
a creation timestamp, and a task_status whose schema default is unsent. -/
structure TaskRow where
  registrationNumber : String
  lab_type : Option String
  lab_subtype : Option String
  date_and_time : String
  imaging_type : Option String
  imaging_subtype : Option String
  task_status : String
deriving DecidableEq, Repr

/-- One row of the oldlabs table.  The schema of src/unnamed/part_004
declares no task_status column for this table. -/
structure OldLabRow where
  registrationNumber : String
  lab_type : Option String
  lab_subtype : Option String
  date_and_time : String
  imaging_type : Option String
  imaging_subtype : Option String
deriving DecidableEq, Repr

/-- One row of the consultations table (and of oldconsultations, which
has the identical shape).  Every insert of the repository supplies the
consult text, so it is embedded as a plain string. -/
structure ConsultRow where
  registrationNumber : String
  consult : String
  date_and_time : String
  task_status : String
deriving DecidableEq, Repr

/-- The embedded store: the five persisted relations. -/
structure DB where
  patients : List PatientRow
  tasks : List TaskRow
  oldlabs : List OldLabRow
  consultations : List ConsultRow
  oldconsultations : List ConsultRow
deriving DecidableEq, Repr

/-- The store right after the CREATE TABLE statements ran: all five
relations empty. -/
def emptyDB : DB := ⟨[], [], [], [], []⟩

/-- Outcome reported to the screen by a handler: the success alert, a
validation alert, the duplicate-registration-number alert, the
already-exists warning of the old-consultation pre-check, or the generic
failure alert of a catch block. -/
inductive Outcome where
  | success
  | validationError
  | duplicateError
  | alreadyExistsWarning
  | storeError
deriving DecidableEq, Repr

/-- Column list of the tasks table as declared in src/unnamed/part_004. -/
def tasksColumns : List String :=
  ["id", "registrationNumber", "lab_type", "lab_subtype", "date_and_time",
   "imaging_type", "imaging_subtype", "task_status"]

/-- Column list of the oldlabs table as declared in src/unnamed/part_004. -/
def oldlabsColumns : List String :=
  ["id", "registrationNumber", "lab_type", "lab_subtype", "date_and_time",
   "imaging_type", "imaging_subtype"]

/-- JavaScript String.prototype.trim, over the character list so that
every use reduces inside the kernel: drop whitespace from both ends. -/
def jsTrim (s : String) : String :=
  ⟨((s.data.dropWhile Char.isWhitespace).reverse.dropWhile Char.isWhitespace).reverse⟩

/-- JavaScript String.prototype.toLowerCase over the character list. -/
def jsLower (s : String) : String :=
  ⟨s.data.map Char.toLower⟩

/-- Value of a run of decimal digit characters. -/
def digitsToNat (l : List Char) : Nat :=
  l.foldl (fun acc c => 10 * acc + (c.toNat - 48)) 0

/-- JavaScript parseInt with radix 10: skip leading whitespace, read an
optional sign and then the longest run of decimal digits; none models
NaN. -/
def parseIntJS (s : String) : Option Int :=
  let t := s.data.dropWhile Char.isWhitespace
  let signAndRest : Int × List Char :=
    match t with
    | '-' :: r => (-1, r)
    | '+' :: r => (1, r)
    | r => (1, r)
  let ds := signAndRest.2.takeWhile Char.isDigit
  if ds = [] then none else some (signAndRest.1 * digitsToNat ds)

/-- The JavaScript idiom x || null on an optional number: undefined and
the falsy value 0 both become null. -/
def jsOrNullInt (o : Option Int) : Option Int :=
  match o with
  | some n => if n = 0 then none else some n
  | none => none

/-- The JavaScript idiom x || null on an optional string: undefined and
the falsy empty string both become null. -/
def jsOrNullStr (o : Option String) : Option String :=
  match o with
  | some s => if s = "" then none else some s
  | none => none

/-- The form state of the AddPatient screen (second component of
src/app/viewtasks.tsx): every field is the raw text or picker value. -/
structure AddPatientForm where
  registrationNumber : String
  patientName : String
  age : String
  gender : String
  location : String
  bedNumber : String
  chiefComplaints : String
  provisionalDiagnosis : String
  miscNotes : String
  number : String
deriving DecidableEq, Repr

/-- handleSubmit of the AddPatient screen: require every field except
miscNotes to be non-blank, require age and bedNumber to parse to
positive integers, reject a registration number already present in
patients, and otherwise insert the row with is_discharged defaulting to
0 and reg_date defaulting to the current date. -/
def handleSubmitAddPatient (db : DB) (f : AddPatientForm) (today : String) :
    DB × Outcome :=
  if (jsTrim f.registrationNumber) = "" ∨ (jsTrim f.patientName) = "" ∨ (jsTrim f.age) = "" ∨
      (jsTrim f.bedNumber) = "" ∨ (jsTrim f.chiefComplaints) = "" ∨
      (jsTrim f.provisionalDiagnosis) = "" ∨ (jsTrim f.number) = "" then
    (db, .validationError)
  else
    match parseIntJS f.age, parseIntJS f.bedNumber with
    | none, _ => (db, .validationError)
    | some _, none => (db, .validationError)
    | some parsedAge, some parsedBed =>
      if parsedAge ≤ 0 then (db, .validationError)
      else if parsedBed ≤ 0 then (db, .validationError)
      else if db.patients.any
          (fun r => decide (r.registrationNumber = (jsTrim f.registrationNumber))) then
        (db, .duplicateError)
      else
        ({ db with patients := db.patients ++ [{
            patientName := (jsTrim f.patientName),
            age := some parsedAge,
            gender := f.gender,
            registrationNumber := (jsTrim f.registrationNumber),
            location := f.location,
            bedNumber := some parsedBed,
            chiefComplaints := some (jsTrim f.chiefComplaints),
            provisionalDiagnosis := some (jsTrim f.provisionalDiagnosis),
            miscNotes := some (jsTrim f.miscNotes),
            reg_date := today,
            contact := (jsTrim f.number),
            is_discharged := 0 }] }, .success)

/-- The patient state of the EditPatient screen of src/app/editpatient.tsx.
age is optional to model NaN. -/
structure EditForm where
  patientName : String
  age : Option Int
  gender : String
  registrationNumber : String
  location : String
  bedNumber : Option Int
  chiefComplaints : Option String
  provisionalDiagnosis : Option String
  miscNotes : Option String
  contact : String
deriving DecidableEq, Repr

/-- The early-return validation block of handleUpdate in
src/app/editpatient.tsx: blank name, NaN or non-positive age, blank
registration number, blank location or blank contact. -/
def editValidationFails (p : EditForm) : Bool :=
  decide ((jsTrim p.patientName) = "") ||
  (match p.age with | none => true | some a => decide (a ≤ 0)) ||
  decide ((jsTrim p.registrationNumber) = "") ||
  decide ((jsTrim p.location) = "") ||
  decide ((jsTrim p.contact) = "")

/-- checkRegistrationNumberExists of src/app/editpatient.tsx: look for a
patient row with the candidate key that is not the row being edited;
when the store read throws, the catch block answers true. -/
def checkRegistrationNumberExists (db : DB) (regNumber orig : String)
    (readFails : Bool) : Bool :=
  if readFails then true
  else db.patients.any (fun r =>
    decide (r.registrationNumber = regNumber) && decide (r.registrationNumber ≠ orig))

/-- The SET list of the UPDATE patients statement of handleUpdate:
every column except reg_date and is_discharged is overwritten from the
form, with the optional fields passed through the x || null idiom. -/
def updPatientRow (p : EditForm) (r : PatientRow) : PatientRow :=
  { r with
    patientName := p.patientName,
    age := p.age,
    gender := p.gender,
    registrationNumber := p.registrationNumber,
    location := p.location,
    bedNumber := jsOrNullInt p.bedNumber,
    chiefComplaints := jsOrNullStr p.chiefComplaints,
    provisionalDiagnosis := jsOrNullStr p.provisionalDiagnosis,
    miscNotes := jsOrNullStr p.miscNotes,
    contact := p.contact }

/-- handleUpdate of src/app/editpatient.tsx: validate the form; when the
key changed, run the uniqueness pre-check and stop on a collision; then
BEGIN TRANSACTION, update the patients row, and, only when the key
changed, cascade the new key to tasks and oldlabs; COMMIT at the end.
Each of the three statements carries a failure flag; a failure raises
the catch block, whose ROLLBACK restores the snapshot taken at BEGIN. -/
def handleUpdatePatient (db : DB) (orig : String) (p : EditForm)
    (precheckReadFails failPatients failTasks failOldlabs : Bool) : DB × Outcome :=
  if editValidationFails p then (db, .validationError)
  else if p.registrationNumber ≠ orig ∧
      checkRegistrationNumberExists db p.registrationNumber orig precheckReadFails = true then
    (db, .duplicateError)
  else if failPatients then (db, .storeError)
  else
    let pats := db.patients.map
      (fun r => if r.registrationNumber = orig then updPatientRow p r else r)
    let db1 : DB := { db with patients := pats }
    if p.registrationNumber = orig then (db1, .success)
    else if failTasks then (db, .storeError)
    else
      let tsks := db1.tasks.map
        (fun r => if r.registrationNumber = orig then
          { r with registrationNumber := p.registrationNumber } else r)
      let db2 : DB := { db1 with tasks := tsks }
      if failOldlabs then (db, .storeError)
      else
        let olds := db2.oldlabs.map
          (fun r => if r.registrationNumber = orig then
            { r with registrationNumber := p.registrationNumber } else r)
        ({ db2 with oldlabs := olds }, .success)

/-- The discharge operation of src/app/reviewoldpatients.tsx: set
is_discharged to 1 on the rows with the given registration number. -/
def discharge (db : DB) (rn : String) : DB :=
  let pats := db.patients.map
    (fun r => if r.registrationNumber = rn then { r with is_discharged := 1 } else r)
  { db with patients := pats }

/-- The reAdmit operation of src/app/reviewoldpatients.tsx: set
is_discharged to 0 on the rows with the given registration number. -/
def reAdmit (db : DB) (rn : String) : DB :=
  let pats := db.patients.map
    (fun r => if r.registrationNumber = rn then { r with is_discharged := 0 } else r)
  { db with patients := pats }

/-- handleAddLab of src/unnamed/part_001: require a registration number
and a non-blank subtype, then insert a tasks row carrying only the lab
payload; the schema fills date_and_time and the unsent default status. -/
def handleAddLab (db : DB) (rn labType labSubtype now : String) : DB × Outcome :=
  if rn = "" then (db, .validationError)
  else if (jsTrim labSubtype) = "" then (db, .validationError)
  else
    ({ db with tasks := db.tasks ++ [{
        registrationNumber := rn,
        lab_type := some labType,
        lab_subtype := some (jsTrim labSubtype),
        date_and_time := now,
        imaging_type := none,
        imaging_subtype := none,
        task_status := "unsent" }] }, .success)

/-- handleAddOldLab of src/unnamed/part_001: like handleAddLab but the
row goes to oldlabs, which has no status column. -/
def handleAddOldLab (db : DB) (rn labType labSubtype now : String) : DB × Outcome :=
  if rn = "" then (db, .validationError)
  else if (jsTrim labSubtype) = "" then (db, .validationError)
  else
    ({ db with oldlabs := db.oldlabs ++ [{
        registrationNumber := rn,
        lab_type := some labType,
        lab_subtype := some (jsTrim labSubtype),
        date_and_time := now,
        imaging_type := none,
        imaging_subtype := none }] }, .success)

/-- handleAddImaging of src/unnamed/part_001: insert a tasks row
carrying only the imaging payload. -/
def handleAddImaging (db : DB) (rn imagingType imagingSubtype now : String) :
    DB × Outcome :=
  if rn = "" then (db, .validationError)
  else if (jsTrim imagingSubtype) = "" then (db, .validationError)
  else
    ({ db with tasks := db.tasks ++ [{
        registrationNumber := rn,
        lab_type := none,
        lab_subtype := none,
        date_and_time := now,
        imaging_type := some imagingType,
        imaging_subtype := some (jsTrim imagingSubtype),
        task_status := "unsent" }] }, .success)

/-- handleAddOldImaging of src/unnamed/part_001: the imaging payload
inserted into oldlabs. -/
def handleAddOldImaging (db : DB) (rn imagingType imagingSubtype now : String) :
    DB × Outcome :=
  if rn = "" then (db, .validationError)
  else if (jsTrim imagingSubtype) = "" then (db, .validationError)
  else
    ({ db with oldlabs := db.oldlabs ++ [{
        registrationNumber := rn,
        lab_type := none,
        lab_subtype := none,
        date_and_time := now,
        imaging_type := some imagingType,
        imaging_subtype := some (jsTrim imagingSubtype) }] }, .success)

/-- handleAddConsultation of src/unnamed/part_001: the duplicate
pre-check result is computed but never consulted in the source, so the
insert always runs once validation passes. -/
def handleAddConsultation (db : DB) (rn text now : String) : DB × Outcome :=
  if rn = "" then (db, .validationError)
  else if (jsTrim text) = "" then (db, .validationError)
  else
    ({ db with consultations := db.consultations ++ [{
        registrationNumber := (jsTrim rn),
        consult := (jsTrim text),
        date_and_time := now,
        task_status := "unsent" }] }, .success)

/-- handleAddOldConsultation of src/unnamed/part_001: when a row with
the same trimmed registration number and consult text already exists the
handler stops with a warning and inserts nothing. -/
def handleAddOldConsultation (db : DB) (rn text now : String) : DB × Outcome :=
  if rn = "" then (db, .validationError)
  else if (jsTrim text) = "" then (db, .validationError)
  else if db.oldconsultations.any (fun r =>
      decide (r.registrationNumber = (jsTrim rn)) && decide (r.consult = (jsTrim text))) then
    (db, .alreadyExistsWarning)
  else
    ({ db with oldconsultations := db.oldconsultations ++ [{
        registrationNumber := (jsTrim rn),
        consult := (jsTrim text),
        date_and_time := now,
        task_status := "unsent" }] }, .success)

/-- The tasks branch of deleteItem in src/app/viewtasks.tsx: the WHERE
clause keys on registration number and timestamp and then takes an OR
across both payload shapes with the same type and subtype values
substituted into both branches. -/
def deleteItemTasks (db : DB) (rn dt ty st : String) : DB :=
  let ts := db.tasks.filter (fun r =>
    !(decide (r.registrationNumber = rn) && decide (r.date_and_time = dt) &&
      ((decide (r.lab_type = some ty) && decide (r.lab_subtype = some st)) ||
       (decide (r.imaging_type = some ty) && decide (r.imaging_subtype = some st)))))
  { db with tasks := ts }

/-- The oldlabs branch of deleteItem in src/app/viewtasks.tsx: the same
OR-across-both-payloads predicate against oldlabs. -/
def deleteItemOldlabs (db : DB) (rn dt ty st : String) : DB :=
  let ol := db.oldlabs.filter (fun r =>
    !(decide (r.registrationNumber = rn) && decide (r.date_and_time = dt) &&
      ((decide (r.lab_type = some ty) && decide (r.lab_subtype = some st)) ||
       (decide (r.imaging_type = some ty) && decide (r.imaging_subtype = some st)))))
  { db with oldlabs := ol }

/-- The consultations branch of deleteItem in src/app/viewtasks.tsx:
match on registration number, consult text and timestamp. -/
def deleteItemConsultations (db : DB) (rn consult dt : String) : DB :=
  let cs := db.consultations.filter (fun r =>
    !(decide (r.registrationNumber = rn) && decide (r.consult = consult) &&
      decide (r.date_and_time = dt)))
  { db with consultations := cs }

/-- The oldconsultations branch of deleteItem in src/app/viewtasks.tsx. -/
def deleteItemOldConsultations (db : DB) (rn consult dt : String) : DB :=
  let cs := db.oldconsultations.filter (fun r =>
    !(decide (r.registrationNumber = rn) && decide (r.consult = consult) &&
      decide (r.date_and_time = dt)))
  { db with oldconsultations := cs }

/-- The Lab branch of markTaskAsSent in src/app/pendingtasks.tsx: set
task_status to sent on the tasks rows matching the full lab natural key. -/
def markLabSent (db : DB) (rn dt lt ls : String) : DB :=
  let ts := db.tasks.map (fun r =>
    if r.registrationNumber = rn ∧ r.date_and_time = dt ∧
        r.lab_type = some lt ∧ r.lab_subtype = some ls then
      { r with task_status := "sent" } else r)
  { db with tasks := ts }

/-- The Imaging branch of markTaskAsSent in src/app/pendingtasks.tsx. -/
def markImagingSent (db : DB) (rn dt ity isub : String) : DB :=
  let ts := db.tasks.map (fun r =>
    if r.registrationNumber = rn ∧ r.date_and_time = dt ∧
        r.imaging_type = some ity ∧ r.imaging_subtype = some isub then
      { r with task_status := "sent" } else r)
  { db with tasks := ts }

/-- The Consultation branch of markTaskAsSent in src/app/pendingtasks.tsx. -/
def markConsultationSent (db : DB) (rn dt consult : String) : DB :=
  let cs := db.consultations.map (fun r =>
    if r.registrationNumber = rn ∧ r.date_and_time = dt ∧ r.consult = consult then
      { r with task_status := "sent" } else r)
  { db with consultations := cs }

/-- The OldConsultation branch of markTaskAsSent in src/app/pendingtasks.tsx. -/
def markOldConsultationSent (db : DB) (rn dt consult : String) : DB :=
  let cs := db.oldconsultations.map (fun r =>
    if r.registrationNumber = rn ∧ r.date_and_time = dt ∧ r.consult = consult then
      { r with task_status := "sent" } else r)
  { db with oldconsultations := cs }

/-- The Lab branch of deleteTask in src/app/pendingtasks.tsx: unlike the
viewtasks delete, the predicate constrains only the lab columns. -/
def pendingDeleteLab (db : DB) (rn dt lt ls : String) : DB :=
  let ts := db.tasks.filter (fun r =>
    !(decide (r.registrationNumber = rn) && decide (r.date_and_time = dt) &&
      decide (r.lab_type = some lt) && decide (r.lab_subtype = some ls)))
  { db with tasks := ts }

/-- The Imaging branch of deleteTask in src/app/pendingtasks.tsx. -/
def pendingDeleteImaging (db : DB) (rn dt ity isub : String) : DB :=
  let ts := db.tasks.filter (fun r =>
    !(decide (r.registrationNumber = rn) && decide (r.date_and_time = dt) &&
      decide (r.imaging_type = some ity) && decide (r.imaging_subtype = some isub)))
  { db with tasks := ts }

/-- The Consultation branch of deleteTask in src/app/pendingtasks.tsx. -/
def pendingDeleteConsultation (db : DB) (rn dt consult : String) : DB :=
  let cs := db.consultations.filter (fun r =>
    !(decide (r.registrationNumber = rn) && decide (r.date_and_time = dt) &&
      decide (r.consult = consult)))
  { db with consultations := cs }

/-- The OldConsultation branch of deleteTask in src/app/pendingtasks.tsx. -/
def pendingDeleteOldConsultation (db : DB) (rn dt consult : String) : DB :=
  let cs := db.oldconsultations.filter (fun r =>
    !(decide (r.registrationNumber = rn) && decide (r.date_and_time = dt) &&
      decide (r.consult = consult)))
  { db with oldconsultations := cs }

/-- The four task categories of src/app/edittask.tsx. -/
inductive TaskCategory where
  | currentLab
  | currentImaging
  | oldLab
  | oldImaging
deriving DecidableEq, Repr

/-- The lowercase lab type names of determineCategory, with the same
spelling as the source. -/
def labTypeNames : List String := ["blood", "urine", "miscellanous"]

/-- The lowercase imaging type names of determineCategory. -/
def imagingTypeNames : List String := ["x-ray", "ct", "mri", "usg"]

/-- determineCategory of src/app/edittask.tsx: dispatch on the table
name and the lowercased type string. -/
def determineCategory (table ty : String) : Option TaskCategory :=
  if table = "tasks" then
    if (jsLower ty) ∈ labTypeNames then some .currentLab
    else if (jsLower ty) ∈ imagingTypeNames then some .currentImaging
    else none
  else if table = "oldlabs" then
    if (jsLower ty) ∈ labTypeNames then some .oldLab
    else if (jsLower ty) ∈ imagingTypeNames then some .oldImaging
    else none
  else none

/-- handleSubmit of src/app/edittask.tsx: stop when the category is
undetermined or the new subtype is blank; for current rows update the
subtype of the matching payload column and the status; for archival rows
update the subtype only, since oldlabs has no status column. -/
def handleSubmitEditTask (db : DB) (rn dt ty table subtype status : String) :
    DB × Outcome :=
  match determineCategory table ty with
  | none => (db, .validationError)
  | some cat =>
    if (jsTrim subtype) = "" then (db, .validationError)
    else
      match cat with
      | .currentLab =>
        let ts := db.tasks.map (fun r =>
          if r.registrationNumber = rn ∧ r.date_and_time = dt ∧ r.lab_type = some ty then
            { r with lab_subtype := some (jsTrim subtype), task_status := status } else r)
        ({ db with tasks := ts }, .success)
      | .currentImaging =>
        let ts := db.tasks.map (fun r =>
          if r.registrationNumber = rn ∧ r.date_and_time = dt ∧ r.imaging_type = some ty then
            { r with imaging_subtype := some (jsTrim subtype), task_status := status } else r)
        ({ db with tasks := ts }, .success)
      | .oldLab =>
        let ol := db.oldlabs.map (fun r =>
          if r.registrationNumber = rn ∧ r.date_and_time = dt ∧ r.lab_type = some ty then
            { r with lab_subtype := some (jsTrim subtype) } else r)
        ({ db with oldlabs := ol }, .success)
      | .oldImaging =>
        let ol := db.oldlabs.map (fun r =>
          if r.registrationNumber = rn ∧ r.date_and_time = dt ∧ r.imaging_type = some ty then
            { r with imaging_subtype := some (jsTrim subtype) } else r)
        ({ db with oldlabs := ol }, .success)

/-- Every state-mutating operation the screens of the repository can
issue against the store, with the parameters a screen can supply.  The
edit-patient operation carries the failure flags of its transaction. -/
inductive Op where
  | createPatient (f : AddPatientForm) (today : String)
  | updatePatient (orig : String) (p : EditForm)
      (precheckReadFails failPatients failTasks failOldlabs : Bool)
  | dischargePatient (rn : String)
  | reAdmitPatient (rn : String)
  | addLab (rn lt ls now : String)
  | addOldLab (rn lt ls now : String)
  | addImaging (rn ity isub now : String)
  | addOldImaging (rn ity isub now : String)
  | addConsultation (rn text now : String)
  | addOldConsultation (rn text now : String)
  | viewDeleteTask (rn dt ty st : String)
  | viewDeleteOldLab (rn dt ty st : String)
  | viewDeleteConsultation (rn consult dt : String)
  | viewDeleteOldConsultation (rn consult dt : String)
  | markLab (rn dt lt ls : String)
  | markImaging (rn dt ity isub : String)
  | markConsultation (rn dt consult : String)
  | markOldConsultation (rn dt consult : String)
  | editTask (rn dt ty table subtype status : String)
  | pendDeleteLab (rn dt lt ls : String)
  | pendDeleteImaging (rn dt ity isub : String)
  | pendDeleteConsultation (rn dt consult : String)
  | pendDeleteOldConsultation (rn dt consult : String)

/-- Apply one operation to the store, keeping the resulting state. -/
def applyOp (db : DB) : Op → DB
  | .createPatient f today => (handleSubmitAddPatient db f today).1
  | .updatePatient orig p pre fP fT fO => (handleUpdatePatient db orig p pre fP fT fO).1
  | .dischargePatient rn => discharge db rn
  | .reAdmitPatient rn => reAdmit db rn
  | .addLab rn lt ls now => (handleAddLab db rn lt ls now).1
  | .addOldLab rn lt ls now => (handleAddOldLab db rn lt ls now).1
  | .addImaging rn ity isub now => (handleAddImaging db rn ity isub now).1
  | .addOldImaging rn ity isub now => (handleAddOldImaging db rn ity isub now).1
  | .addConsultation rn text now => (handleAddConsultation db rn text now).1
  | .addOldConsultation rn text now => (handleAddOldConsultation db rn text now).1
  | .viewDeleteTask rn dt ty st => deleteItemTasks db rn dt ty st
  | .viewDeleteOldLab rn dt ty st => deleteItemOldlabs db rn dt ty st
  | .viewDeleteConsultation rn consult dt => deleteItemConsultations db rn consult dt
  | .viewDeleteOldConsultation rn consult dt => deleteItemOldConsultations db rn consult dt
  | .markLab rn dt lt ls => markLabSent db rn dt lt ls
  | .markImaging rn dt ity isub => markImagingSent db rn dt ity isub
  | .markConsultation rn dt consult => markConsultationSent db rn dt consult
  | .markOldConsultation rn dt consult => markOldConsultationSent db rn dt consult
  | .editTask rn dt ty table subtype status =>
      (handleSubmitEditTask db rn dt ty table subtype status).1
  | .pendDeleteLab rn dt lt ls => pendingDeleteLab db rn dt lt ls
  | .pendDeleteImaging rn dt ity isub => pendingDeleteImaging db rn dt ity isub
  | .pendDeleteConsultation rn dt consult => pendingDeleteConsultation db rn dt consult
  | .pendDeleteOldConsultation rn dt consult => pendingDeleteOldConsultation db rn dt consult

/-- The states the store can reach from the freshly created schema by
any sequence of screen operations. -/
inductive Reachable : DB → Prop where
  | start : Reachable emptyDB
  | step (db : DB) (op : Op) : Reachable db → Reachable (applyOp db op)

/-- No two patient rows share a registration number. -/
def UniqKeys (db : DB) : Prop :=
  db.patients.Pairwise (fun a b => a.registrationNumber ≠ b.registrationNumber)

/-- Exactly one payload of a tasks row is populated: both lab columns
set and both imaging columns null, or the other way around. -/
def ExclTaskRow (r : TaskRow) : Prop :=
  (r.lab_type.isSome ∧ r.lab_subtype.isSome ∧
    r.imaging_type = none ∧ r.imaging_subtype = none) ∨
  (r.imaging_type.isSome ∧ r.imaging_subtype.isSome ∧
    r.lab_type = none ∧ r.lab_subtype = none)

/-- Exactly one payload of an oldlabs row is populated. -/
def ExclOldLabRow (r : OldLabRow) : Prop :=
  (r.lab_type.isSome ∧ r.lab_subtype.isSome ∧
    r.imaging_type = none ∧ r.imaging_subtype = none) ∨
  (r.imaging_type.isSome ∧ r.imaging_subtype.isSome ∧
    r.lab_type = none ∧ r.lab_subtype = none)

/-- Payload exclusivity over the whole store. -/
def ExclDB (db : DB) : Prop :=
  (∀ r ∈ db.tasks, ExclTaskRow r) ∧ (∀ r ∈ db.oldlabs, ExclOldLabRow r)

/-- A parse result that is a positive integer. -/
def parsesPositive (o : Option Int) : Prop :=
  match o with
  | some n => 0 < n
  | none => False

instance (o : Option Int) : Decidable (parsesPositive o) := by
  unfold parsesPositive
  cases o with
  | none => exact inferInstanceAs (Decidable False)
  | some n => exact inferInstanceAs (Decidable (0 < n))

/-- The AddPatient submission passes the validation block: every field
except miscNotes is non-blank and age and bedNumber parse to positive
integers. -/
def createValidates (f : AddPatientForm) : Prop :=
  ¬((jsTrim f.registrationNumber) = "" ∨ (jsTrim f.patientName) = "" ∨ (jsTrim f.age) = "" ∨
      (jsTrim f.bedNumber) = "" ∨ (jsTrim f.chiefComplaints) = "" ∨
      (jsTrim f.provisionalDiagnosis) = "" ∨ (jsTrim f.number) = "") ∧
  parsesPositive (parseIntJS f.age) ∧ parsesPositive (parseIntJS f.bedNumber)

instance (f : AddPatientForm) : Decidable (createValidates f) := by
  unfold createValidates
  infer_instance

/-- Spec-side description of the rename cascade on tasks: every row
whose key equals the old key is rewritten to the new key, everything
else is untouched. -/
def renameTaskRows (l : List TaskRow) (orig new : String) : List TaskRow :=
  l.map (fun r => if r.registrationNumber = orig then { r with registrationNumber := new } else r)

/-- Spec-side description of the rename cascade on oldlabs. -/
def renameOldLabRows (l : List OldLabRow) (orig new : String) : List OldLabRow :=
  l.map (fun r => if r.registrationNumber = orig then { r with registrationNumber := new } else r)

/-- Projection that forgets the discharge flag, used to state that the
discharge and re-admit operations modify no other field. -/
def clearDischarge (r : PatientRow) : PatientRow := { r with is_discharged := 0 }

/-- Number of consultation rows holding a given key and consult text. -/
def countConsult (l : List ConsultRow) (k t : String) : Nat :=
  l.countP (fun r => decide (r.registrationNumber = k ∧ r.consult = t))

instance (r : TaskRow) : Decidable (ExclTaskRow r) := by
  unfold ExclTaskRow
  infer_instance

instance (r : OldLabRow) : Decidable (ExclOldLabRow r) := by
  unfold ExclOldLabRow
  infer_instance

instance (db : DB) : Decidable (ExclDB db) := by
  unfold ExclDB
  infer_instance

instance (db : DB) : Decidable (UniqKeys db) := by
  unfold UniqKeys
  infer_instance

/-- A discharged patient holding key R1, for concrete instantiations. -/
def patientR1 : PatientRow :=
  ⟨"John Doe", some 40, "Male", "R1", "ICU", some 3, none, none, none, "2025-01-01", "555", 1⟩

/-- An admitted patient holding key R2. -/
def patientR2 : PatientRow :=
  ⟨"Mary Major", some 50, "Female", "R2", "HDU", none, none, none, none, "2025-01-02", "666", 0⟩

/-- An admitted patient holding key R3. -/
def patientR3 : PatientRow :=
  ⟨"Pat Minor", some 20, "Other", "R3", "Emergency", none, none, none, none, "2025-01-03", "777", 0⟩

/-- A lab-payload tasks row owned by R1. -/
def taskR1 : TaskRow :=
  ⟨"R1", some "blood", some "CBC", "2025-01-01 10:00:00", none, none, "unsent"⟩

/-- A hypothetical imaging-payload tasks row whose imaging type and
subtype textually coincide with the lab values of taskR1. -/
def taskCross : TaskRow :=
  ⟨"R1", none, none, "2025-01-01 10:00:00", some "blood", some "CBC", "unsent"⟩

/-- An archival lab row owned by R1. -/
def oldlabR1 : OldLabRow :=
  ⟨"R1", some "blood", some "ESR", "2024-12-01 10:00:00", none, none⟩

/-- An archival imaging row whose payload textually coincides with the
lab values of oldlabR1. -/
def oldlabCross : OldLabRow :=
  ⟨"R1", none, none, "2024-12-01 10:00:00", some "blood", some "ESR"⟩

/-- A store holding only the discharged patient R1. -/
def dbR1 : DB := ⟨[patientR1], [], [], [], []⟩

/-- A store holding patients R1 and R2. -/
def dbR1R2 : DB := ⟨[patientR1, patientR2], [], [], [], []⟩

/-- A store holding patient R1 together with one task and one archival
lab owned by R1. -/
def dbC1 : DB := ⟨[patientR1], [taskR1], [oldlabR1], [], []⟩

/-- A store holding the two textually colliding task rows. -/
def dbCross : DB := ⟨[], [taskR1, taskCross], [oldlabR1, oldlabCross], [], []⟩

/-- A store holding the admitted patient R3. -/
def dbR3 : DB := ⟨[patientR3], [], [], [], []⟩

/-- A fully valid AddPatient submission re-using key R1. -/
def formR1 : AddPatientForm :=
  ⟨"R1", "Jane Roe", "30", "Female", "HDU", "2", "cough", "flu", "", "123"⟩

/-- A fully valid AddPatient submission with fresh key R2. -/
def formR2 : AddPatientForm :=
  ⟨"R2", "Jane Roe", "30", "Female", "HDU", "2", "cough", "flu", "", "123"⟩

/-- An AddPatient submission that is valid except that the bed number
field was left empty. -/
def formNoBed : AddPatientForm :=
  ⟨"R9", "Jane Roe", "30", "Female", "HDU", "", "cough", "flu", "", "123"⟩

/-- A valid EditPatient form renaming the edited patient to key R2. -/
def editR2 : EditForm :=
  ⟨"John Doe", some 41, "Male", "R2", "ICU", some 3, none, none, none, "555"⟩

/-- Mapping a table row-by-row cannot break pairwise key distinctness
when the mapped function never maps two distinct keys to one key. -/
theorem pairwise_keys_map {α : Type} {l : List α} (k : α → String) (f : α → α)
    (h : ∀ a ∈ l, ∀ b ∈ l, k a ≠ k b → k (f a) ≠ k (f b))
    (hp : l.Pairwise (fun a b => k a ≠ k b)) :
    (l.map f).Pairwise (fun a b => k a ≠ k b) := by
  rw [List.pairwise_map]
  exact hp.imp_of_mem (fun ha hb hab => h _ ha _ hb hab)

/-- The AddPatient submit handler preserves key uniqueness: the
duplicate pre-check guards the one insert. -/
theorem uniqKeys_handleSubmitAddPatient (db : DB) (f : AddPatientForm) (today : String)
    (h : UniqKeys db) : UniqKeys (handleSubmitAddPatient db f today).1 := by
  simp only [handleSubmitAddPatient]
  split
  · exact h
  · split
    · exact h
    · exact h
    · split
      · exact h
      · split
        · exact h
        · split
          · exact h
          · rename_i hany
            unfold UniqKeys at h ⊢
            dsimp only
            rw [List.pairwise_append]
            refine ⟨h, List.pairwise_singleton _ _, ?_⟩
            intro a ha b hb
            simp only [List.mem_singleton] at hb
            subst hb
            intro hk
            apply hany
            simp only [List.any_eq_true, decide_eq_true_eq]
            exact ⟨a, ha, hk⟩

/-- The EditPatient update handler preserves key uniqueness: a rename is
guarded by the pre-check, and a non-rename update keeps every key. -/
theorem uniqKeys_handleUpdatePatient (db : DB) (orig : String) (p : EditForm)
    (pre fP fT fO : Bool) (h : UniqKeys db) :
    UniqKeys (handleUpdatePatient db orig p pre fP fT fO).1 := by
  simp only [handleUpdatePatient]
  split
  · exact h
  split
  · exact h
  split
  · exact h
  rename_i hnotdup _
  split
  · rename_i heq
    unfold UniqKeys at h ⊢
    dsimp only
    apply pairwise_keys_map _ _ _ h
    intro a _ b _ hab
    have hk : ∀ r : PatientRow,
        (if r.registrationNumber = orig then updPatientRow p r else r).registrationNumber
          = r.registrationNumber := by
      intro r
      by_cases hr : r.registrationNumber = orig
      · simp [hr, updPatientRow, heq]
      · simp [hr]
    simpa [hk] using hab
  · rename_i hne
    have hchk : checkRegistrationNumberExists db p.registrationNumber orig pre ≠ true :=
      fun hc => hnotdup ⟨hne, hc⟩
    have hfresh : ∀ r ∈ db.patients, r.registrationNumber ≠ p.registrationNumber := by
      intro r hr hkey
      apply hchk
      unfold checkRegistrationNumberExists
      split
      · rfl
      · simp only [List.any_eq_true, Bool.and_eq_true, decide_eq_true_eq]
        exact ⟨r, hr, hkey, hkey ▸ hne⟩
    have hmap : UniqKeys { db with patients := db.patients.map (fun r => if r.registrationNumber = orig then updPatientRow p r else r) } := by
      unfold UniqKeys at h ⊢
      dsimp only
      apply pairwise_keys_map _ _ _ h
      intro a ha b hb hab
      by_cases h1 : a.registrationNumber = orig <;> by_cases h2 : b.registrationNumber = orig
      · exact absurd (h1.trans h2.symm) hab
      · simp only [h1, h2, if_pos, if_neg, updPatientRow]
        exact fun hc => (hfresh b hb) hc.symm
      · simp only [h1, h2, if_pos, if_neg, updPatientRow]
        exact fun hc => (hfresh a ha) hc
      · simpa [h1, h2] using hab
    split
    · exact h
    split
    · exact h
    · exact hmap

/-- Key uniqueness of the patients table is preserved by every screen
operation. -/
theorem uniqKeys_applyOp (db : DB) (op : Op) (h : UniqKeys db) : UniqKeys (applyOp db op) := by
  cases op with
  | createPatient f today => exact uniqKeys_handleSubmitAddPatient db f today h
  | updatePatient orig p pre fP fT fO => exact uniqKeys_handleUpdatePatient db orig p pre fP fT fO h
  | dischargePatient rn =>
    unfold UniqKeys at h ⊢
    simp only [applyOp, discharge]
    apply pairwise_keys_map _ _ _ h
    intro a _ b _ hab
    by_cases h1 : a.registrationNumber = rn <;> by_cases h2 : b.registrationNumber = rn <;>
      simpa [h1, h2] using hab
  | reAdmitPatient rn =>
    unfold UniqKeys at h ⊢
    simp only [applyOp, reAdmit]
    apply pairwise_keys_map _ _ _ h
    intro a _ b _ hab
    by_cases h1 : a.registrationNumber = rn <;> by_cases h2 : b.registrationNumber = rn <;>
      simpa [h1, h2] using hab
  | addLab rn lt ls now =>
    show UniqKeys (handleAddLab db rn lt ls now).1
    simp only [handleAddLab]
    split
    · exact h
    split
    · exact h
    · exact h
  | addOldLab rn lt ls now =>
    show UniqKeys (handleAddOldLab db rn lt ls now).1
    simp only [handleAddOldLab]
    split
    · exact h
    split
    · exact h
    · exact h
  | addImaging rn ity isub now =>
    show UniqKeys (handleAddImaging db rn ity isub now).1
    simp only [handleAddImaging]
    split
    · exact h
    split
    · exact h
    · exact h
  | addOldImaging rn ity isub now =>
    show UniqKeys (handleAddOldImaging db rn ity isub now).1
    simp only [handleAddOldImaging]
    split
    · exact h
    split
    · exact h
    · exact h
  | addConsultation rn text now =>
    show UniqKeys (handleAddConsultation db rn text now).1
    simp only [handleAddConsultation]
    split
    · exact h
    split
    · exact h
    · exact h
  | addOldConsultation rn text now =>
    show UniqKeys (handleAddOldConsultation db rn text now).1
    simp only [handleAddOldConsultation]
    split
    · exact h
    split
    · exact h
    split
    · exact h
    · exact h
  | viewDeleteTask rn dt ty st => exact h
  | viewDeleteOldLab rn dt ty st => exact h
  | viewDeleteConsultation rn consult dt => exact h
  | viewDeleteOldConsultation rn consult dt => exact h
  | markLab rn dt lt ls => exact h
  | markImaging rn dt ity isub => exact h
  | markConsultation rn dt consult => exact h
  | markOldConsultation rn dt consult => exact h
  | editTask rn dt ty table subtype status =>
    show UniqKeys (handleSubmitEditTask db rn dt ty table subtype status).1
    simp only [handleSubmitEditTask]
    split
    · exact h
    · split
      · exact h
      · split <;> exact h
  | pendDeleteLab rn dt lt ls => exact h
  | pendDeleteImaging rn dt ity isub => exact h
  | pendDeleteConsultation rn dt consult => exact h
  | pendDeleteOldConsultation rn dt consult => exact h

/-- Every reachable store state has pairwise distinct patient keys. -/
theorem uniqKeys_reachable (db : DB) (h : Reachable db) : UniqKeys db := by
  induction h with
  | start => simp [UniqKeys, emptyDB]
  | step db op _ ih => exact uniqKeys_applyOp db op ih

/-- A row predicate survives appending one row that satisfies it. -/
theorem all_append_singleton {α : Type} (P : α → Prop) (l : List α) (a : α)
    (h : ∀ r ∈ l, P r) (ha : P a) : ∀ r ∈ l ++ [a], P r := by
  intro r hr
  rcases List.mem_append.1 hr with h1 | h2
  · exact h r h1
  · rw [List.mem_singleton.1 h2]
    exact ha

/-- Payload exclusivity of tasks and oldlabs is preserved by every
screen operation: inserts populate exactly one payload, updates touch
only the key, the subtype of the already-populated payload, or the
status, and deletes only remove rows. -/
theorem exclDB_applyOp (db : DB) (op : Op) (h : ExclDB db) : ExclDB (applyOp db op) := by
  obtain ⟨ht, ho⟩ := h
  cases op with
  | createPatient f today =>
    show ExclDB (handleSubmitAddPatient db f today).1
    simp only [handleSubmitAddPatient]
    split
    · exact ⟨ht, ho⟩
    · split
      · exact ⟨ht, ho⟩
      · exact ⟨ht, ho⟩
      · split
        · exact ⟨ht, ho⟩
        · split
          · exact ⟨ht, ho⟩
          · split
            · exact ⟨ht, ho⟩
            · exact ⟨ht, ho⟩
  | updatePatient orig p pre fP fT fO =>
    show ExclDB (handleUpdatePatient db orig p pre fP fT fO).1
    simp only [handleUpdatePatient]
    split
    · exact ⟨ht, ho⟩
    split
    · exact ⟨ht, ho⟩
    split
    · exact ⟨ht, ho⟩
    split
    · exact ⟨ht, ho⟩
    split
    · exact ⟨ht, ho⟩
    split
    · exact ⟨ht, ho⟩
    · constructor
      · intro r hr
        rcases List.mem_map.1 hr with ⟨a, ha, rfl⟩
        split
        · exact ht a ha
        · exact ht a ha
      · intro r hr
        rcases List.mem_map.1 hr with ⟨a, ha, rfl⟩
        split
        · exact ho a ha
        · exact ho a ha
  | dischargePatient rn => exact ⟨ht, ho⟩
  | reAdmitPatient rn => exact ⟨ht, ho⟩
  | addLab rn lt ls now =>
    show ExclDB (handleAddLab db rn lt ls now).1
    simp only [handleAddLab]
    split
    · exact ⟨ht, ho⟩
    split
    · exact ⟨ht, ho⟩
    · refine ⟨all_append_singleton _ _ _ ht ?_, ho⟩
      simp [ExclTaskRow]
  | addOldLab rn lt ls now =>
    show ExclDB (handleAddOldLab db rn lt ls now).1
    simp only [handleAddOldLab]
    split
    · exact ⟨ht, ho⟩
    split
    · exact ⟨ht, ho⟩
    · refine ⟨ht, all_append_singleton _ _ _ ho ?_⟩
      simp [ExclOldLabRow]
  | addImaging rn ity isub now =>
    show ExclDB (handleAddImaging db rn ity isub now).1
    simp only [handleAddImaging]
    split
    · exact ⟨ht, ho⟩
    split
    · exact ⟨ht, ho⟩
    · refine ⟨all_append_singleton _ _ _ ht ?_, ho⟩
      simp [ExclTaskRow]
  | addOldImaging rn ity isub now =>
    show ExclDB (handleAddOldImaging db rn ity isub now).1
    simp only [handleAddOldImaging]
    split
    · exact ⟨ht, ho⟩
    split
    · exact ⟨ht, ho⟩
    · refine ⟨ht, all_append_singleton _ _ _ ho ?_⟩
      simp [ExclOldLabRow]
  | addConsultation rn text now =>
    show ExclDB (handleAddConsultation db rn text now).1
    simp only [handleAddConsultation]
    split
    · exact ⟨ht, ho⟩
    split
    · exact ⟨ht, ho⟩
    · exact ⟨ht, ho⟩
  | addOldConsultation rn text now =>
    show ExclDB (handleAddOldConsultation db rn text now).1
    simp only [handleAddOldConsultation]
    split
    · exact ⟨ht, ho⟩
    split
    · exact ⟨ht, ho⟩
    split
    · exact ⟨ht, ho⟩
    · exact ⟨ht, ho⟩
  | viewDeleteTask rn dt ty st =>
    exact ⟨fun r hr => ht r (List.mem_filter.1 hr).1, ho⟩
  | viewDeleteOldLab rn dt ty st =>
    exact ⟨ht, fun r hr => ho r (List.mem_filter.1 hr).1⟩
  | viewDeleteConsultation rn consult dt => exact ⟨ht, ho⟩
  | viewDeleteOldConsultation rn consult dt => exact ⟨ht, ho⟩
  | markLab rn dt lt ls =>
    refine ⟨?_, ho⟩
    intro r hr
    rcases List.mem_map.1 hr with ⟨a, ha, rfl⟩
    split
    · exact ht a ha
    · exact ht a ha
  | markImaging rn dt ity isub =>
    refine ⟨?_, ho⟩
    intro r hr
    rcases List.mem_map.1 hr with ⟨a, ha, rfl⟩
    split
    · exact ht a ha
    · exact ht a ha
  | markConsultation rn dt consult => exact ⟨ht, ho⟩
  | markOldConsultation rn dt consult => exact ⟨ht, ho⟩
  | editTask rn dt ty table subtype status =>
    show ExclDB (handleSubmitEditTask db rn dt ty table subtype status).1
    simp only [handleSubmitEditTask]
    split
    · exact ⟨ht, ho⟩
    · split
      · exact ⟨ht, ho⟩
      · split
        · refine ⟨?_, ho⟩
          intro r hr
          rcases List.mem_map.1 hr with ⟨a, ha, rfl⟩
          split
          · rename_i hcond
            rcases ht a ha with ⟨h1, _, h3, h4⟩ | ⟨_, _, h5, _⟩
            · exact Or.inl ⟨h1, by simp, h3, h4⟩
            · exact absurd hcond.2.2 (by simp [h5])
          · exact ht a ha
        · refine ⟨?_, ho⟩
          intro r hr
          rcases List.mem_map.1 hr with ⟨a, ha, rfl⟩
          split
          · rename_i hcond
            rcases ht a ha with ⟨_, _, h5, _⟩ | ⟨h1, _, h3, h4⟩
            · exact absurd hcond.2.2 (by simp [h5])
            · exact Or.inr ⟨h1, by simp, h3, h4⟩
          · exact ht a ha
        · refine ⟨ht, ?_⟩
          intro r hr
          rcases List.mem_map.1 hr with ⟨a, ha, rfl⟩
          split
          · rename_i hcond
            rcases ho a ha with ⟨h1, _, h3, h4⟩ | ⟨_, _, h5, _⟩
            · exact Or.inl ⟨h1, by simp, h3, h4⟩
            · exact absurd hcond.2.2 (by simp [h5])
          · exact ho a ha
        · refine ⟨ht, ?_⟩
          intro r hr
          rcases List.mem_map.1 hr with ⟨a, ha, rfl⟩
          split
          · rename_i hcond
            rcases ho a ha with ⟨_, _, h5, _⟩ | ⟨h1, _, h3, h4⟩
            · exact absurd hcond.2.2 (by simp [h5])
            · exact Or.inr ⟨h1, by simp, h3, h4⟩
          · exact ho a ha
  | pendDeleteLab rn dt lt ls =>
    exact ⟨fun r hr => ht r (List.mem_filter.1 hr).1, ho⟩
  | pendDeleteImaging rn dt ity isub =>
    exact ⟨fun r hr => ht r (List.mem_filter.1 hr).1, ho⟩
  | pendDeleteConsultation rn dt consult => exact ⟨ht, ho⟩
  | pendDeleteOldConsultation rn dt consult => exact ⟨ht, ho⟩

/-- Every reachable store state satisfies payload exclusivity. -/
theorem exclDB_reachable (db : DB) (h : Reachable db) : ExclDB db := by
  induction h with
  | start => exact ⟨by simp [emptyDB], by simp [emptyDB]⟩
  | step db op _ ih => exact exclDB_applyOp db op ih

/-- A false uniqueness pre-check answer means no other patient holds the
candidate key. -/
theorem fresh_of_checkFalse (db : DB) (key orig : String)
    (hne : key ≠ orig)
    (hchk : checkRegistrationNumberExists db key orig false = false) :
    ∀ r ∈ db.patients, r.registrationNumber ≠ key := by
  intro r hr hk
  have hc : checkRegistrationNumberExists db key orig false = true := by
    unfold checkRegistrationNumberExists
    rw [if_neg (by simp)]
    simp only [List.any_eq_true, Bool.and_eq_true, decide_eq_true_eq]
    exact ⟨r, hr, hk, hk ▸ hne⟩
  rw [hchk] at hc
  simp at hc

/-- Closed form of the successful rename path of handleUpdatePatient. -/
theorem handleUpdatePatient_rename (db : DB) (orig : String) (p : EditForm)
    (hval : editValidationFails p = false) (hne : p.registrationNumber ≠ orig)
    (hchk : checkRegistrationNumberExists db p.registrationNumber orig false = false) :
    handleUpdatePatient db orig p false false false false =
      ({ patients := db.patients.map (fun r => if r.registrationNumber = orig then updPatientRow p r else r),
         tasks := renameTaskRows db.tasks orig p.registrationNumber,
         oldlabs := renameOldLabRows db.oldlabs orig p.registrationNumber,
         consultations := db.consultations,
         oldconsultations := db.oldconsultations }, Outcome.success) := by
  simp [handleUpdatePatient, hval, hne, hchk, renameTaskRows, renameOldLabRows]

/-- Closed form of the no-rename path of handleUpdatePatient: the
dependent tables are never touched, whatever the cascade failure flags. -/
theorem handleUpdatePatient_norename (db : DB) (orig : String) (p : EditForm) (fT fO : Bool)
    (hval : editValidationFails p = false) (heq : p.registrationNumber = orig) :
    handleUpdatePatient db orig p false false fT fO =
      ({ patients := db.patients.map (fun r => if r.registrationNumber = orig then updPatientRow p r else r),
         tasks := db.tasks,
         oldlabs := db.oldlabs,
         consultations := db.consultations,
         oldconsultations := db.oldconsultations }, Outcome.success) := by
  simp [handleUpdatePatient, hval, heq]

/-- Closed form of the rename path when one of the two cascade
statements fails: the catch block rolls back to the snapshot. -/
theorem handleUpdatePatient_cascadeFail (db : DB) (orig : String) (p : EditForm) (fT fO : Bool)
    (hval : editValidationFails p = false) (hne : p.registrationNumber ≠ orig)
    (hchk : checkRegistrationNumberExists db p.registrationNumber orig false = false)
    (hf : fT = true ∨ fO = true) :
    handleUpdatePatient db orig p false false fT fO = (db, Outcome.storeError) := by
  rcases hf with hf | hf
  · simp [handleUpdatePatient, hval, hne, hchk, hf]
  · by_cases hft : fT = true
    · simp [handleUpdatePatient, hval, hne, hchk, hft]
    · simp [handleUpdatePatient, hval, hne, hchk, Bool.eq_false_iff.2 hft, hf]

/-- Closed form of the rename path when the pre-check read throws. -/
theorem handleUpdatePatient_precheckFail (db : DB) (orig : String) (p : EditForm)
    (fP fT fO : Bool)
    (hval : editValidationFails p = false) (hne : p.registrationNumber ≠ orig) :
    handleUpdatePatient db orig p true fP fT fO = (db, Outcome.duplicateError) := by
  simp [handleUpdatePatient, hval, hne, checkRegistrationNumberExists]

/-- Closed form of the rename path when another patient already holds
the candidate key. -/
theorem handleUpdatePatient_dupRename (db : DB) (orig : String) (p : EditForm)
    (fP fT fO : Bool)
    (hval : editValidationFails p = false) (hne : p.registrationNumber ≠ orig)
    (hdup : ∃ r ∈ db.patients, r.registrationNumber = p.registrationNumber) :
    handleUpdatePatient db orig p false fP fT fO = (db, Outcome.duplicateError) := by
  obtain ⟨r, hr, hk⟩ := hdup
  have hchk : checkRegistrationNumberExists db p.registrationNumber orig false = true := by
    unfold checkRegistrationNumberExists
    rw [if_neg (by simp)]
    simp only [List.any_eq_true, Bool.and_eq_true, decide_eq_true_eq]
    exact ⟨r, hr, hk, hk ▸ hne⟩
  simp [handleUpdatePatient, hval, hne, hchk]

/-- C1: if updatePatient changes the registration number and the cascade
to tasks or oldlabs fails partway, the whole update rolls back: the
returned store is the snapshot, every patients, tasks and oldlabs row
still carries its original registration number, and no row of any of
these tables carries the new key (given that no dependent row carried it
before). -/
theorem C1_rename_rollback (db : DB) (orig : String) (p : EditForm) (fT fO : Bool)
    (hval : editValidationFails p = false)
    (hne : p.registrationNumber ≠ orig)
    (hchk : checkRegistrationNumberExists db p.registrationNumber orig false = false)
    (hf : fT = true ∨ fO = true) :
    handleUpdatePatient db orig p false false fT fO = (db, Outcome.storeError) ∧
    (handleUpdatePatient db orig p false false fT fO).1.patients = db.patients ∧
    (handleUpdatePatient db orig p false false fT fO).1.tasks = db.tasks ∧
    (handleUpdatePatient db orig p false false fT fO).1.oldlabs = db.oldlabs ∧
    (∀ r ∈ (handleUpdatePatient db orig p false false fT fO).1.patients,
        r.registrationNumber ≠ p.registrationNumber) ∧
    ((∀ r ∈ db.tasks, r.registrationNumber ≠ p.registrationNumber) →
      ∀ r ∈ (handleUpdatePatient db orig p false false fT fO).1.tasks,
        r.registrationNumber ≠ p.registrationNumber) ∧
    ((∀ r ∈ db.oldlabs, r.registrationNumber ≠ p.registrationNumber) →
      ∀ r ∈ (handleUpdatePatient db orig p false false fT fO).1.oldlabs,
        r.registrationNumber ≠ p.registrationNumber) := by
  have hres := handleUpdatePatient_cascadeFail db orig p fT fO hval hne hchk hf
  rw [hres]
  exact ⟨rfl, rfl, rfl, rfl, fresh_of_checkFalse db p.registrationNumber orig hne hchk,
    fun h => h, fun h => h⟩

/-- Witness for C1 at a concrete store: renaming R1 to R2 while the
tasks cascade statement fails leaves the store untouched. -/
theorem C1_rename_rollback_witness :
    handleUpdatePatient dbC1 "R1" editR2 false false true false = (dbC1, Outcome.storeError) :=
  (C1_rename_rollback dbC1 "R1" editR2 true false (by decide) (by decide) (by decide)
    (Or.inl rfl)).1

/-- C4: a committed rename rewrites exactly the tasks and oldlabs rows
holding the old key to the new key and leaves consultations and
oldconsultations untouched; when the submitted key equals the original,
no dependent table is touched at all. -/
theorem C4_rename_cascade (db : DB) (orig : String) (p : EditForm) (fT fO : Bool)
    (hval : editValidationFails p = false) :
    (p.registrationNumber ≠ orig →
      checkRegistrationNumberExists db p.registrationNumber orig false = false →
      (handleUpdatePatient db orig p false false false false).2 = Outcome.success ∧
      (handleUpdatePatient db orig p false false false false).1.tasks
        = renameTaskRows db.tasks orig p.registrationNumber ∧
      (handleUpdatePatient db orig p false false false false).1.oldlabs
        = renameOldLabRows db.oldlabs orig p.registrationNumber ∧
      (∀ r ∈ db.tasks, r.registrationNumber = orig →
        { r with registrationNumber := p.registrationNumber }
          ∈ (handleUpdatePatient db orig p false false false false).1.tasks) ∧
      (∀ r ∈ db.oldlabs, r.registrationNumber = orig →
        { r with registrationNumber := p.registrationNumber }
          ∈ (handleUpdatePatient db orig p false false false false).1.oldlabs) ∧
      (handleUpdatePatient db orig p false false false false).1.consultations
        = db.consultations ∧
      (handleUpdatePatient db orig p false false false false).1.oldconsultations
        = db.oldconsultations) ∧
    (p.registrationNumber = orig →
      (handleUpdatePatient db orig p false false fT fO).2 = Outcome.success ∧
      (handleUpdatePatient db orig p false false fT fO).1.tasks = db.tasks ∧
      (handleUpdatePatient db orig p false false fT fO).1.oldlabs = db.oldlabs ∧
      (handleUpdatePatient db orig p false false fT fO).1.consultations = db.consultations ∧
      (handleUpdatePatient db orig p false false fT fO).1.oldconsultations
        = db.oldconsultations) := by
  constructor
  · intro hne hchk
    rw [handleUpdatePatient_rename db orig p hval hne hchk]
    refine ⟨rfl, rfl, rfl, ?_, ?_, rfl, rfl⟩
    · intro r hr hk
      exact List.mem_map.2 ⟨r, hr, by simp [hk]⟩
    · intro r hr hk
      exact List.mem_map.2 ⟨r, hr, by simp [hk]⟩
  · intro heq
    rw [handleUpdatePatient_norename db orig p fT fO hval heq]
    exact ⟨rfl, rfl, rfl, rfl, rfl⟩

/-- Witness for C4 at a concrete store: renaming R1 to R2 succeeds and
rewrites the dependent tasks and oldlabs rows while leaving the
consultation tables untouched. -/
theorem C4_rename_cascade_witness :
    (handleUpdatePatient dbC1 "R1" editR2 false false false false).2 = Outcome.success ∧
    (handleUpdatePatient dbC1 "R1" editR2 false false false false).1.tasks
      = renameTaskRows dbC1.tasks "R1" editR2.registrationNumber ∧
    (handleUpdatePatient dbC1 "R1" editR2 false false false false).1.consultations
      = dbC1.consultations :=
  ⟨((C4_rename_cascade dbC1 "R1" editR2 false false (by decide)).1 (by decide) (by decide)).1,
   ((C4_rename_cascade dbC1 "R1" editR2 false false (by decide)).1 (by decide) (by decide)).2.1,
   ((C4_rename_cascade dbC1 "R1" editR2 false false (by decide)).1 (by decide) (by decide)).2.2.2.2.2.1⟩

/-- C10: when the uniqueness pre-check read throws,
checkRegistrationNumberExists answers true, so a rename is reported as a
duplicate key and no table is written. -/
theorem C10_failed_precheck (db : DB) (orig : String) (p : EditForm) (fP fT fO : Bool)
    (hval : editValidationFails p = false)
    (hne : p.registrationNumber ≠ orig) :
    checkRegistrationNumberExists db p.registrationNumber orig true = true ∧
    handleUpdatePatient db orig p true fP fT fO = (db, Outcome.duplicateError) :=
  ⟨rfl, handleUpdatePatient_precheckFail db orig p fP fT fO hval hne⟩

/-- Witness for C10 at a concrete store. -/
theorem C10_failed_precheck_witness :
    handleUpdatePatient dbC1 "R1" editR2 true false false false = (dbC1, Outcome.duplicateError) :=
  (C10_failed_precheck dbC1 "R1" editR2 false false false (by decide) (by decide)).2

/-- Closed form of the AddPatient submit when validation fails: the
handler returns before any store access. -/
theorem handleSubmitAddPatient_invalid (db : DB) (f : AddPatientForm) (today : String)
    (h : ¬ createValidates f) :
    handleSubmitAddPatient db f today = (db, Outcome.validationError) := by
  by_cases h1 : ((jsTrim f.registrationNumber) = "" ∨ (jsTrim f.patientName) = "" ∨
      (jsTrim f.age) = "" ∨ (jsTrim f.bedNumber) = "" ∨ (jsTrim f.chiefComplaints) = "" ∨
      (jsTrim f.provisionalDiagnosis) = "" ∨ (jsTrim f.number) = "")
  · unfold handleSubmitAddPatient
    rw [if_pos h1]
  · rcases hA : parseIntJS f.age with _ | a
    · unfold handleSubmitAddPatient
      rw [if_neg h1, hA]
    · rcases hB : parseIntJS f.bedNumber with _ | b
      · unfold handleSubmitAddPatient
        rw [if_neg h1, hA, hB]
      · by_cases ha : a ≤ 0
        · unfold handleSubmitAddPatient
          rw [if_neg h1, hA, hB]
          dsimp only
          rw [if_pos ha]
        · by_cases hb : b ≤ 0
          · unfold handleSubmitAddPatient
            rw [if_neg h1, hA, hB]
            dsimp only
            rw [if_neg ha, if_pos hb]
          · exfalso
            apply h
            refine ⟨h1, ?_, ?_⟩
            · rw [hA]
              show (0 : Int) < a
              omega
            · rw [hB]
              show (0 : Int) < b
              omega

/-- The AddPatient submit never reports a validation failure once the
validation block passes. -/
theorem handleSubmitAddPatient_valid_outcome (db : DB) (f : AddPatientForm) (today : String)
    (h : createValidates f) :
    (handleSubmitAddPatient db f today).2 = Outcome.duplicateError ∨
    (handleSubmitAddPatient db f today).2 = Outcome.success := by
  obtain ⟨h1, h2, h3⟩ := h
  rcases hA : parseIntJS f.age with _ | a
  · rw [hA] at h2
    exact absurd h2 (by simp [parsesPositive])
  rcases hB : parseIntJS f.bedNumber with _ | b
  · rw [hB] at h3
    exact absurd h3 (by simp [parsesPositive])
  rw [hA] at h2
  rw [hB] at h3
  have ha : ¬ a ≤ 0 := by
    have : (0 : Int) < a := h2
    omega
  have hb : ¬ b ≤ 0 := by
    have : (0 : Int) < b := h3
    omega
  simp only [handleSubmitAddPatient, if_neg h1, hA, hB, if_neg ha, if_neg hb]
  split
  · exact Or.inl rfl
  · exact Or.inr rfl

/-- Closed form of the AddPatient submit on a valid form whose key is
already taken: the duplicate pre-check rejects and nothing is inserted. -/
theorem handleSubmitAddPatient_dup (db : DB) (f : AddPatientForm) (today : String)
    (hval : createValidates f)
    (hdup : ∃ r ∈ db.patients, r.registrationNumber = jsTrim f.registrationNumber) :
    handleSubmitAddPatient db f today = (db, Outcome.duplicateError) := by
  obtain ⟨h1, h2, h3⟩ := hval
  rcases hA : parseIntJS f.age with _ | a
  · rw [hA] at h2
    exact absurd h2 (by simp [parsesPositive])
  rcases hB : parseIntJS f.bedNumber with _ | b
  · rw [hB] at h3
    exact absurd h3 (by simp [parsesPositive])
  rw [hA] at h2
  rw [hB] at h3
  have ha : ¬ a ≤ 0 := by
    have : (0 : Int) < a := h2
    omega
  have hb : ¬ b ≤ 0 := by
    have : (0 : Int) < b := h3
    omega
  have hany : db.patients.any
      (fun r => decide (r.registrationNumber = (jsTrim f.registrationNumber))) = true := by
    simp only [List.any_eq_true, decide_eq_true_eq]
    exact hdup
  simp only [handleSubmitAddPatient, if_neg h1, hA, hB, if_neg ha, if_neg hb, hany, if_pos]

/-- C2: every reachable store state has pairwise distinct patient
registration numbers; a valid create submission whose key is already
present (discharged or not) is rejected with the duplicate outcome and
inserts nothing; and a valid rename to a key held by another patient is
rejected with the duplicate outcome, leaving the prior state unchanged. -/
theorem C2_key_uniqueness :
    (∀ db : DB, Reachable db → UniqKeys db) ∧
    (∀ (db : DB) (f : AddPatientForm) (today : String),
      createValidates f →
      (∃ r ∈ db.patients, r.registrationNumber = jsTrim f.registrationNumber) →
      handleSubmitAddPatient db f today = (db, Outcome.duplicateError)) ∧
    (∀ (db : DB) (orig : String) (p : EditForm) (fP fT fO : Bool),
      editValidationFails p = false →
      p.registrationNumber ≠ orig →
      (∃ r ∈ db.patients, r.registrationNumber = p.registrationNumber) →
      handleUpdatePatient db orig p false fP fT fO = (db, Outcome.duplicateError)) :=
  ⟨fun db h => uniqKeys_reachable db h,
   fun db f today hv hd => handleSubmitAddPatient_dup db f today hv hd,
   fun db orig p fP fT fO hv hne hd => handleUpdatePatient_dupRename db orig p fP fT fO hv hne hd⟩

/-- Witness for C2: a reachable one-patient state is unique; creating a
second patient with the key of the discharged patient R1 is rejected;
renaming R1 to the key of R2 is rejected. -/
theorem C2_key_uniqueness_witness :
    UniqKeys (applyOp emptyDB (Op.createPatient formR2 "2025-02-01")) ∧
    handleSubmitAddPatient dbR1 formR1 "2025-02-01" = (dbR1, Outcome.duplicateError) ∧
    handleUpdatePatient dbR1R2 "R1" editR2 false false false false
      = (dbR1R2, Outcome.duplicateError) :=
  ⟨C2_key_uniqueness.1 _ (Reachable.step emptyDB (Op.createPatient formR2 "2025-02-01")
      Reachable.start),
   C2_key_uniqueness.2.1 dbR1 formR1 "2025-02-01" (by decide)
      ⟨patientR1, by decide, by decide⟩,
   C2_key_uniqueness.2.2 dbR1R2 "R1" editR2 false false false (by decide) (by decide)
      ⟨patientR2, by decide, by decide⟩⟩

/-- C3: every screen operation preserves payload exclusivity of tasks
and oldlabs, and every reachable store state satisfies it: each row has
exactly one of the two payloads fully populated, never both and never
neither. -/
theorem C3_payload_exclusivity :
    (∀ (db : DB) (op : Op), ExclDB db → ExclDB (applyOp db op)) ∧
    (∀ db : DB, Reachable db → ExclDB db) :=
  ⟨fun db op h => exclDB_applyOp db op h, fun db h => exclDB_reachable db h⟩

/-- Witness for C3: exclusivity after a concrete lab insert on the empty
store, and at the empty store itself. -/
theorem C3_payload_exclusivity_witness :
    ExclDB (applyOp emptyDB (Op.addLab "R1" "blood" " CBC " "t1")) ∧ ExclDB emptyDB :=
  ⟨C3_payload_exclusivity.1 emptyDB (Op.addLab "R1" "blood" " CBC " "t1") (by decide),
   C3_payload_exclusivity.2 emptyDB Reachable.start⟩

/-- C8 counterexample: a submission that is valid in every respect
except that the bed number field is left empty is rejected by the
validation block with nothing inserted, so a patient cannot be created
with bedNumber omitted. -/
theorem C8_counterexample_bed_required :
    handleSubmitAddPatient emptyDB formNoBed "2025-02-01"
      = (emptyDB, Outcome.validationError) ∧
    (handleSubmitAddPatient emptyDB formNoBed "2025-02-01").1.patients = [] ∧
    jsTrim formNoBed.registrationNumber ≠ "" ∧ jsTrim formNoBed.patientName ≠ "" ∧
    parsesPositive (parseIntJS formNoBed.age) ∧
    jsTrim formNoBed.chiefComplaints ≠ "" ∧ jsTrim formNoBed.provisionalDiagnosis ≠ "" ∧
    jsTrim formNoBed.number ≠ "" ∧ formNoBed.bedNumber = "" := by
  decide

/-- C8 as amended: createPatient reports a validation failure exactly
when one of the required fields (registration number, name, age, bed
number, chief complaints, provisional diagnosis, contact - every field
except miscNotes) is blank or age or bedNumber fails to parse to a
positive integer; bedNumber is required, not optional; and every
validation failure leaves the store unchanged. -/
theorem C8_create_validation (db : DB) (f : AddPatientForm) (today : String) :
    ((handleSubmitAddPatient db f today).2 = Outcome.validationError ↔ ¬ createValidates f) ∧
    ((handleSubmitAddPatient db f today).2 = Outcome.validationError →
      (handleSubmitAddPatient db f today).1 = db) := by
  constructor
  · constructor
    · intro hout hval
      rcases handleSubmitAddPatient_valid_outcome db f today hval with h | h <;>
        rw [hout] at h <;> simp at h
    · intro hnv
      rw [handleSubmitAddPatient_invalid db f today hnv]
  · intro hout
    by_cases hval : createValidates f
    · rcases handleSubmitAddPatient_valid_outcome db f today hval with h | h <;>
        rw [hout] at h <;> simp at h
    · rw [handleSubmitAddPatient_invalid db f today hval]

/-- Witness for the amended C8 at the concrete bed-less form. -/
theorem C8_create_validation_witness :
    ((handleSubmitAddPatient emptyDB formNoBed "2025-02-01").2 = Outcome.validationError
      ↔ ¬ createValidates formNoBed) ∧
    (handleSubmitAddPatient emptyDB formNoBed "2025-02-01").1 = emptyDB :=
  ⟨(C8_create_validation emptyDB formNoBed "2025-02-01").1,
   (C8_create_validation emptyDB formNoBed "2025-02-01").2 (by decide)⟩

/-- Closed form of the first archival-consultation insert: no matching
pair exists yet, so the row is appended. -/
theorem addOldConsult_first (db : DB) (rn text now : String)
    (hrn : rn ≠ "") (htx : jsTrim text ≠ "")
    (hany : db.oldconsultations.any (fun r =>
      decide (r.registrationNumber = (jsTrim rn)) && decide (r.consult = (jsTrim text))) = false) :
    handleAddOldConsultation db rn text now =
      ({ db with oldconsultations :=
          db.oldconsultations ++ [⟨jsTrim rn, jsTrim text, now, "unsent"⟩] }, Outcome.success) := by
  unfold handleAddOldConsultation
  rw [if_neg hrn, if_neg htx, if_neg (by simp [hany])]

/-- Closed form of a repeated archival-consultation insert: the
pre-check finds the pair and the handler stops with the warning. -/
theorem addOldConsult_repeat (db : DB) (rn text now : String)
    (hrn : rn ≠ "") (htx : jsTrim text ≠ "")
    (hmem : ∃ r ∈ db.oldconsultations,
      r.registrationNumber = jsTrim rn ∧ r.consult = jsTrim text) :
    handleAddOldConsultation db rn text now = (db, Outcome.alreadyExistsWarning) := by
  have hany : db.oldconsultations.any (fun r =>
      decide (r.registrationNumber = (jsTrim rn)) && decide (r.consult = (jsTrim text))) = true := by
    simp only [List.any_eq_true, Bool.and_eq_true, decide_eq_true_eq]
    obtain ⟨r, hr, h1, h2⟩ := hmem
    exact ⟨r, hr, h1, h2⟩
  unfold handleAddOldConsultation
  rw [if_neg hrn, if_neg htx, if_pos hany]

/-- Closed form of the current-consultation insert: the pre-check result
is ignored, so a valid submission always appends. -/
theorem addConsult_eq (db : DB) (rn text now : String)
    (hrn : rn ≠ "") (htx : jsTrim text ≠ "") :
    handleAddConsultation db rn text now =
      ({ db with consultations :=
          db.consultations ++ [⟨jsTrim rn, jsTrim text, now, "unsent"⟩] }, Outcome.success) := by
  unfold handleAddConsultation
  rw [if_neg hrn, if_neg htx]

/-- C5: adding the same pair twice to oldconsultations stores exactly
one row, the second call reporting the already-exists outcome and
changing nothing; adding the same pair twice to consultations stores
two rows. -/
theorem C5_archival_dup_suppression (db : DB) (rn text now1 now2 now3 now4 : String)
    (hrn : rn ≠ "") (htx : jsTrim text ≠ "")
    (h0 : countConsult db.oldconsultations (jsTrim rn) (jsTrim text) = 0) :
    (handleAddOldConsultation db rn text now1).2 = Outcome.success ∧
    (handleAddOldConsultation (handleAddOldConsultation db rn text now1).1 rn text now2).2
      = Outcome.alreadyExistsWarning ∧
    (handleAddOldConsultation (handleAddOldConsultation db rn text now1).1 rn text now2).1
      = (handleAddOldConsultation db rn text now1).1 ∧
    countConsult (handleAddOldConsultation
        (handleAddOldConsultation db rn text now1).1 rn text now2).1.oldconsultations
      (jsTrim rn) (jsTrim text) = 1 ∧
    countConsult (handleAddConsultation
        (handleAddConsultation db rn text now3).1 rn text now4).1.consultations
      (jsTrim rn) (jsTrim text)
      = countConsult db.consultations (jsTrim rn) (jsTrim text) + 2 := by
  have hany : db.oldconsultations.any (fun r =>
      decide (r.registrationNumber = (jsTrim rn)) && decide (r.consult = (jsTrim text))) = false := by
    rw [List.any_eq_false]
    intro r hr
    have hz := (List.countP_eq_zero.1 h0) r hr
    simp only [decide_eq_true_eq] at hz
    simp only [Bool.and_eq_true, decide_eq_true_eq]
    exact hz
  have e1 := addOldConsult_first db rn text now1 hrn htx hany
  have hmem : ∃ r ∈ (handleAddOldConsultation db rn text now1).1.oldconsultations,
      r.registrationNumber = jsTrim rn ∧ r.consult = jsTrim text := by
    rw [e1]
    exact ⟨⟨jsTrim rn, jsTrim text, now1, "unsent"⟩,
      List.mem_append_right _ (by simp), rfl, rfl⟩
  have e2 := addOldConsult_repeat (handleAddOldConsultation db rn text now1).1 rn text now2
    hrn htx hmem
  have e3 := addConsult_eq db rn text now3 hrn htx
  have e4 := addConsult_eq (handleAddConsultation db rn text now3).1 rn text now4 hrn htx
  refine ⟨by rw [e1], by rw [e2], by rw [e2], ?_, ?_⟩
  · rw [e2, e1]
    unfold countConsult at h0 ⊢
    dsimp only
    rw [List.countP_append, h0]
    simp
  · rw [e4, e3]
    unfold countConsult
    dsimp only
    rw [List.countP_append, List.countP_append]
    simp

/-- Witness for C5 on the empty store with a concrete pair. -/
theorem C5_archival_dup_suppression_witness :
    (handleAddOldConsultation
        (handleAddOldConsultation emptyDB "R1" " cardio " "t1").1 "R1" " cardio " "t2").2
      = Outcome.alreadyExistsWarning ∧
    countConsult (handleAddOldConsultation
        (handleAddOldConsultation emptyDB "R1" " cardio " "t1").1 "R1" " cardio " "t2").1.oldconsultations
      (jsTrim "R1") (jsTrim " cardio ") = 1 ∧
    countConsult (handleAddConsultation
        (handleAddConsultation emptyDB "R1" " cardio " "t3").1 "R1" " cardio " "t4").1.consultations
      (jsTrim "R1") (jsTrim " cardio ")
      = countConsult emptyDB.consultations (jsTrim "R1") (jsTrim " cardio ") + 2 :=
  ⟨(C5_archival_dup_suppression emptyDB "R1" " cardio " "t1" "t2" "t3" "t4"
      (by decide) (by decide) (by decide)).2.1,
   (C5_archival_dup_suppression emptyDB "R1" " cardio " "t1" "t2" "t3" "t4"
      (by decide) (by decide) (by decide)).2.2.2.1,
   (C5_archival_dup_suppression emptyDB "R1" " cardio " "t1" "t2" "t3" "t4"
      (by decide) (by decide) (by decide)).2.2.2.2⟩

/-- C6: a newly inserted tasks row carries the unsent default status;
after the pending-tasks screen marks it as sent, reading it back by its
natural key yields status sent; and the oldlabs schema has no
task_status column at all. -/
theorem C6_status_default_and_transition (db : DB) (rn lt ls now : String)
    (hrn : rn ≠ "") (hls : jsTrim ls ≠ "") :
    (handleAddLab db rn lt ls now).2 = Outcome.success ∧
    (handleAddLab db rn lt ls now).1.tasks.getLast?
      = some ⟨rn, some lt, some (jsTrim ls), now, none, none, "unsent"⟩ ∧
    (∃ r ∈ (markLabSent (handleAddLab db rn lt ls now).1 rn now lt (jsTrim ls)).tasks,
        r.registrationNumber = rn ∧ r.date_and_time = now ∧ r.lab_type = some lt ∧
        r.lab_subtype = some (jsTrim ls) ∧ r.task_status = "sent") ∧
    (∀ r ∈ (markLabSent (handleAddLab db rn lt ls now).1 rn now lt (jsTrim ls)).tasks,
        r.registrationNumber = rn → r.date_and_time = now → r.lab_type = some lt →
        r.lab_subtype = some (jsTrim ls) → r.task_status = "sent") ∧
    "task_status" ∈ tasksColumns ∧ "task_status" ∉ oldlabsColumns := by
  have hadd : handleAddLab db rn lt ls now =
      ({ db with tasks :=
          db.tasks ++ [⟨rn, some lt, some (jsTrim ls), now, none, none, "unsent"⟩] },
        Outcome.success) := by
    unfold handleAddLab
    rw [if_neg hrn, if_neg hls]
  refine ⟨by rw [hadd], ?_, ?_, ?_, by decide, by decide⟩
  · rw [hadd]
    dsimp only
    exact List.getLast?_concat _
  · rw [hadd]
    refine ⟨⟨rn, some lt, some (jsTrim ls), now, none, none, "sent"⟩, ?_, rfl, rfl, rfl, rfl, rfl⟩
    unfold markLabSent
    dsimp only
    refine List.mem_map.2 ⟨⟨rn, some lt, some (jsTrim ls), now, none, none, "unsent"⟩, ?_, ?_⟩
    · exact List.mem_append_right _ (by simp)
    · rw [if_pos ⟨rfl, rfl, rfl, rfl⟩]
  · rw [hadd]
    intro r hr h1 h2 h3 h4
    unfold markLabSent at hr
    dsimp only at hr
    rcases List.mem_map.1 hr with ⟨a, _, rfl⟩
    by_cases hc : a.registrationNumber = rn ∧ a.date_and_time = now ∧
        a.lab_type = some lt ∧ a.lab_subtype = some (jsTrim ls)
    · rw [if_pos hc]
    · rw [if_neg hc] at h1 h2 h3 h4
      exact absurd ⟨h1, h2, h3, h4⟩ hc

/-- Witness for C6 on the empty store with a concrete lab order. -/
theorem C6_status_default_and_transition_witness :
    (handleAddLab emptyDB "R1" "blood" " CBC " "t1").2 = Outcome.success ∧
    (handleAddLab emptyDB "R1" "blood" " CBC " "t1").1.tasks.getLast?
      = some ⟨"R1", some "blood", some (jsTrim " CBC "), "t1", none, none, "unsent"⟩ ∧
    (∀ r ∈ (markLabSent (handleAddLab emptyDB "R1" "blood" " CBC " "t1").1
        "R1" "t1" "blood" (jsTrim " CBC ")).tasks,
      r.registrationNumber = "R1" → r.date_and_time = "t1" → r.lab_type = some "blood" →
      r.lab_subtype = some (jsTrim " CBC ") → r.task_status = "sent") ∧
    "task_status" ∉ oldlabsColumns :=
  ⟨(C6_status_default_and_transition emptyDB "R1" "blood" " CBC " "t1"
      (by decide) (by decide)).1,
   (C6_status_default_and_transition emptyDB "R1" "blood" " CBC " "t1"
      (by decide) (by decide)).2.1,
   (C6_status_default_and_transition emptyDB "R1" "blood" " CBC " "t1"
      (by decide) (by decide)).2.2.2.1,
   (C6_status_default_and_transition emptyDB "R1" "blood" " CBC " "t1"
      (by decide) (by decide)).2.2.2.2.2⟩

/-- C7: the viewtasks delete predicate keys on registration number and
timestamp and then takes the same type and subtype values in an OR
across both payload shapes, so one delete call removes every row of
either payload shape whose type and subtype equal the given strings at
that key and timestamp, in tasks and in oldlabs alike. -/
theorem C7_or_predicate_cross_match (db : DB) (rn dt ty st : String) :
    (∀ r ∈ db.tasks, r.registrationNumber = rn → r.date_and_time = dt →
      r.imaging_type = some ty → r.imaging_subtype = some st →
      r ∉ (deleteItemTasks db rn dt ty st).tasks) ∧
    (∀ r ∈ db.tasks, r.registrationNumber = rn → r.date_and_time = dt →
      r.lab_type = some ty → r.lab_subtype = some st →
      r ∉ (deleteItemTasks db rn dt ty st).tasks) ∧
    (∀ r ∈ db.oldlabs, r.registrationNumber = rn → r.date_and_time = dt →
      r.imaging_type = some ty → r.imaging_subtype = some st →
      r ∉ (deleteItemOldlabs db rn dt ty st).oldlabs) ∧
    (∀ r ∈ db.oldlabs, r.registrationNumber = rn → r.date_and_time = dt →
      r.lab_type = some ty → r.lab_subtype = some st →
      r ∉ (deleteItemOldlabs db rn dt ty st).oldlabs) := by
  refine ⟨?_, ?_, ?_, ?_⟩
  · intro r _ h1 h2 h3 h4 hmem
    unfold deleteItemTasks at hmem
    dsimp only at hmem
    have := (List.mem_filter.1 hmem).2
    simp [h1, h2, h3, h4] at this
  · intro r _ h1 h2 h3 h4 hmem
    unfold deleteItemTasks at hmem
    dsimp only at hmem
    have := (List.mem_filter.1 hmem).2
    simp [h1, h2, h3, h4] at this
  · intro r _ h1 h2 h3 h4 hmem
    unfold deleteItemOldlabs at hmem
    dsimp only at hmem
    have := (List.mem_filter.1 hmem).2
    simp [h1, h2, h3, h4] at this
  · intro r _ h1 h2 h3 h4 hmem
    unfold deleteItemOldlabs at hmem
    dsimp only at hmem
    have := (List.mem_filter.1 hmem).2
    simp [h1, h2, h3, h4] at this

/-- Witness for C7: deleting what the screen shows as a lab item also
removes the textually colliding imaging row at the same key and
timestamp, and the other three directions at the same concrete store. -/
theorem C7_or_predicate_cross_match_witness :
    taskCross ∉ (deleteItemTasks dbCross "R1" "2025-01-01 10:00:00" "blood" "CBC").tasks ∧
    taskR1 ∉ (deleteItemTasks dbCross "R1" "2025-01-01 10:00:00" "blood" "CBC").tasks ∧
    oldlabCross ∉ (deleteItemOldlabs dbCross "R1" "2024-12-01 10:00:00" "blood" "ESR").oldlabs ∧
    oldlabR1 ∉ (deleteItemOldlabs dbCross "R1" "2024-12-01 10:00:00" "blood" "ESR").oldlabs :=
  ⟨(C7_or_predicate_cross_match dbCross "R1" "2025-01-01 10:00:00" "blood" "CBC").1
      taskCross (by decide) (by decide) (by decide) (by decide) (by decide),
   (C7_or_predicate_cross_match dbCross "R1" "2025-01-01 10:00:00" "blood" "CBC").2.1
      taskR1 (by decide) (by decide) (by decide) (by decide) (by decide),
   (C7_or_predicate_cross_match dbCross "R1" "2024-12-01 10:00:00" "blood" "ESR").2.2.1
      oldlabCross (by decide) (by decide) (by decide) (by decide) (by decide),
   (C7_or_predicate_cross_match dbCross "R1" "2024-12-01 10:00:00" "blood" "ESR").2.2.2
      oldlabR1 (by decide) (by decide) (by decide) (by decide) (by decide)⟩

/-- Two maps agree when the functions agree pointwise. -/
theorem mapCongrFun {α β : Type} (f g : α → β) (l : List α) (h : ∀ a, f a = g a) :
    l.map f = l.map g := by
  induction l with
  | nil => rfl
  | cons x xs ih => simp [h x, ih]

/-- Re-admitting rows that are already admitted rewrites nothing. -/
theorem map_readmit_id (l : List PatientRow) (rn : String)
    (h : ∀ r ∈ l, r.registrationNumber = rn → r.is_discharged = 0) :
    l.map (fun r => if r.registrationNumber = rn then { r with is_discharged := 0 } else r)
      = l := by
  induction l with
  | nil => rfl
  | cons x xs ih =>
    simp only [List.map_cons]
    have hx : (if x.registrationNumber = rn then { x with is_discharged := 0 } else x) = x := by
      by_cases hxr : x.registrationNumber = rn
      · have h0 := h x (by simp) hxr
        rw [if_pos hxr]
        obtain ⟨a1, a2, a3, a4, a5, a6, a7, a8, a9, a10, a11, a12⟩ := x
        simp only at h0
        rw [h0]
      · rw [if_neg hxr]
    rw [hx, ih (fun r hr => h r (List.mem_cons_of_mem _ hr))]

/-- C9: the discharge and re-admit toggles are idempotent and absorb
each other - discharging twice equals discharging once, re-admitting an
already admitted patient changes nothing, re-admit followed by discharge
equals a single discharge - and neither operation modifies any field
other than is_discharged or any table other than patients. -/
theorem C9_discharge_readmit_algebra (db : DB) (rn : String) :
    discharge (discharge db rn) rn = discharge db rn ∧
    discharge (reAdmit db rn) rn = discharge db rn ∧
    ((∀ r ∈ db.patients, r.registrationNumber = rn → r.is_discharged = 0) →
      reAdmit db rn = db) ∧
    (∀ r ∈ (discharge db rn).patients, r.registrationNumber = rn → r.is_discharged = 1) ∧
    (discharge db rn).patients.map clearDischarge = db.patients.map clearDischarge ∧
    (reAdmit db rn).patients.map clearDischarge = db.patients.map clearDischarge ∧
    (discharge db rn).tasks = db.tasks ∧ (discharge db rn).oldlabs = db.oldlabs ∧
    (discharge db rn).consultations = db.consultations ∧
    (discharge db rn).oldconsultations = db.oldconsultations ∧
    (reAdmit db rn).tasks = db.tasks ∧ (reAdmit db rn).oldlabs = db.oldlabs ∧
    (reAdmit db rn).consultations = db.consultations ∧
    (reAdmit db rn).oldconsultations = db.oldconsultations := by
  obtain ⟨pl, tl, ol, cl, ocl⟩ := db
  refine ⟨?_, ?_, ?_, ?_, ?_, ?_, rfl, rfl, rfl, rfl, rfl, rfl, rfl, rfl⟩
  · unfold discharge
    dsimp only
    congr 1
    rw [List.map_map]
    apply mapCongrFun
    intro a
    by_cases ha : a.registrationNumber = rn <;> simp [Function.comp, ha]
  · unfold discharge reAdmit
    dsimp only
    congr 1
    rw [List.map_map]
    apply mapCongrFun
    intro a
    by_cases ha : a.registrationNumber = rn <;> simp [Function.comp, ha]
  · intro hall
    unfold reAdmit
    dsimp only
    rw [map_readmit_id pl rn hall]
  · intro r hr hk
    unfold discharge at hr
    dsimp only at hr
    rcases List.mem_map.1 hr with ⟨a, _, rfl⟩
    by_cases hc : a.registrationNumber = rn
    · rw [if_pos hc]
    · rw [if_neg hc] at hk
      exact absurd hk hc
  · unfold discharge
    dsimp only
    rw [List.map_map]
    apply mapCongrFun
    intro a
    by_cases ha : a.registrationNumber = rn <;> simp [Function.comp, clearDischarge, ha]
  · unfold reAdmit
    dsimp only
    rw [List.map_map]
    apply mapCongrFun
    intro a
    by_cases ha : a.registrationNumber = rn <;> simp [Function.comp, clearDischarge, ha]

/-- Witness for C9 at concrete stores: re-admitting the admitted patient
R3 changes nothing, and double discharge of R1 equals a single
discharge. -/
theorem C9_discharge_readmit_algebra_witness :
    reAdmit dbR3 "R3" = dbR3 ∧
    discharge (discharge dbR1 "R1") "R1" = discharge dbR1 "R1" :=
  ⟨(C9_discharge_readmit_algebra dbR3 "R3").2.2.1 (by decide),
   (C9_discharge_readmit_algebra dbR1 "R1").1⟩
